import Mathlib

/-!
Shallow embedding of the Pillinfo core (drug lookup, product matching,
cache, and dosage arbitration) and proofs about the claims of its
specification.

Python floats are modelled as exact rationals (`ℚ`), Python's `int` as
`Int`, Python dicts used as string-keyed maps as insertion-ordered
association lists, and Python exceptions as an `Except` error channel.
-/

set_option autoImplicit false

namespace Pillinfo

/-! ## ProductMatcher (src/backend/services/drug_lookup/product_matcher.py)

`evaluate_matches` treats the product payloads as opaque values: it only
slices and counts the lists it is given, so it is modelled polymorphically
in the product type. -/

/-- Result of `ProductMatcher.evaluate_matches` / `DrugLookupService.evaluate_product_matches`:
the dict `{match_type, best_match, sample_products, match_count}`. -/
structure MatchEval (α : Type) where
  match_type : String
  best_match : Option α
  sample_products : List α
  match_count : Nat
  deriving Repr, DecidableEq

namespace ProductMatcher

/-- `ProductMatcher.evaluate_matches(products, refined, user_was_specific)`.
Python truthiness of a list is non-emptiness. -/
def evaluate_matches {α : Type} (products refined : List α)
    (user_was_specific : Bool) : MatchEval α :=
  if user_was_specific && !refined.isEmpty then
    if refined.length = 1 then
      { match_type := "exact", best_match := refined.head?,
        sample_products := refined, match_count := 1 }
    else
      { match_type := "multiple", best_match := none,
        sample_products := refined.take 3, match_count := refined.length }
  else if user_was_specific && refined.isEmpty then
    { match_type := "none", best_match := none,
      sample_products := products.take 3, match_count := 0 }
  else
    { match_type := "vague", best_match := none,
      sample_products := products.take 3, match_count := products.length }

end ProductMatcher

namespace DrugLookupService

/-- `DrugLookupService.evaluate_product_matches(products, refined, user_was_specific)`.
Identical to `ProductMatcher.evaluate_matches` except that the `multiple`
branch samples the first 5 (not 3) refined products. -/
def evaluate_product_matches {α : Type} (products refined : List α)
    (user_was_specific : Bool) : MatchEval α :=
  if user_was_specific && !refined.isEmpty then
    if refined.length = 1 then
      { match_type := "exact", best_match := refined.head?,
        sample_products := refined, match_count := 1 }
    else
      { match_type := "multiple", best_match := none,
        sample_products := refined.take 5, match_count := refined.length }
  else if user_was_specific && refined.isEmpty then
    { match_type := "none", best_match := none,
      sample_products := products.take 3, match_count := 0 }
  else
    { match_type := "vague", best_match := none,
      sample_products := products.take 3, match_count := products.length }

end DrugLookupService

/-! ## Pure dosage calculator (src/backend/services/dosage/dosage_calculator.py) -/

/-- Python exceptions that the modelled code can raise. -/
inductive PyErr where
  /-- `AttributeError`, e.g. calling `.get` on `None`. -/
  | attributeError
  /-- `TypeError`, e.g. comparing `None` with a number. -/
  | typeError
  /-- `ValueError(msg)` — the calculator's validation error. -/
  | valueError (msg : String)
  deriving Repr, DecidableEq

namespace DosageDC

/-- `STANDARD_ADULT_WEIGHT_KG` (both calculator classes). -/
def STANDARD_ADULT_WEIGHT_KG : ℚ := 70

/-- `YOUNGS_RULE_CONSTANT`. -/
def YOUNGS_RULE_CONSTANT : ℚ := 12

/-- `DosageCalculator.clarks_rule` of the pure `services/dosage` calculator:
no validation, just `(weight_kg / 70) * adult_dose_mg`. -/
def clarks_rule (adult_dose_mg weight_kg : ℚ) : ℚ :=
  (weight_kg / STANDARD_ADULT_WEIGHT_KG) * adult_dose_mg

/-- `DosageCalculator._validate_weight` of the pure `services/dosage`
calculator: raises `ValueError` below 2.5 kg or above 200 kg. -/
def validate_weight (weight_kg : ℚ) : Except PyErr Unit :=
  if weight_kg < 5/2 then .error (.valueError "Weight must be greater than 2.5kg")
  else if weight_kg > 200 then .error (.valueError "Weight must be ≤ 200kg")
  else .ok ()

end DosageDC

/-! ## Utilities dosage calculator (src/backend/utilities/dosage_calculator.py) -/

/-- Python `round(x, 2)` (round-half-to-even at two decimals), on the exact
rational modelling of the float value. -/
def round2 (x : ℚ) : ℚ :=
  let y : ℚ := x * 100
  let n : ℤ := ⌊y⌋
  let f : ℚ := y - n
  (if f < 1/2 then (n : ℚ)
   else if f > 1/2 then (n : ℚ) + 1
   else if Even n then (n : ℚ) else (n : ℚ) + 1) / 100

/-- Stand-in for Python's number-to-string formatting used only inside the
presentation-only `formula` strings (CPython float `repr` is not modelled
digit-for-digit; no claim depends on these strings). -/
def pyNum (q : ℚ) : String := toString q

/-- An element of a Python warnings list: the calculator appends plain
strings, the dosage service inserts a `{level, category, message}` dict
into the same list. -/
inductive PyWarning where
  /-- a plain string warning -/
  | s (text : String)
  /-- a `{level, category, message}` dict warning -/
  | w (level category message : String)
  deriving Repr, DecidableEq

/-- One formula's result dict `{dose_mg, description, formula}`. -/
structure MethodResult where
  dose_mg : ℚ
  description : String
  formula : String
  deriving Repr, DecidableEq

/-- The `methods` dict: `clarks_rule` always present, `youngs_rule` and
`frieds_rule` only under their age conditions. -/
structure CalcMethods where
  clarks_rule : MethodResult
  youngs_rule : Option MethodResult
  frieds_rule : Option MethodResult
  deriving Repr, DecidableEq

/-- Return dict of `DosageCalculator.calculate_pediatric_dosage`. -/
structure CalcResult where
  adult_dose_mg : ℚ
  patient_weight_kg : ℚ
  patient_age : Option ℤ
  methods : CalcMethods
  recommended_dose_mg : ℚ
  warnings : List PyWarning
  deriving Repr, DecidableEq

namespace DosageUtil

/-- `DosageCalculator._clarks_rule` (utilities class). -/
def _clarks_rule (adult_dose_mg weight_kg : ℚ) : ℚ :=
  (weight_kg / DosageDC.STANDARD_ADULT_WEIGHT_KG) * adult_dose_mg

/-- `DosageCalculator._youngs_rule` (utilities class). -/
def _youngs_rule (adult_dose_mg : ℚ) (age_years : ℤ) : ℚ :=
  ((age_years : ℚ) / ((age_years : ℚ) + DosageDC.YOUNGS_RULE_CONSTANT)) * adult_dose_mg

/-- `DosageCalculator._frieds_rule` (utilities class). -/
def _frieds_rule (adult_dose_mg age_months : ℚ) : ℚ :=
  (age_months / 150) * adult_dose_mg

/-- `DosageCalculator._build_method_result`: rounds the dose to 2 decimals. -/
def _build_method_result (dose : ℚ) (description formula : String) : MethodResult :=
  { dose_mg := round2 dose, description := description, formula := formula }

/-- `DosageCalculator._calculate_methods`: Clark's always; Young's when an
age `≤ MAX_AGE = 18` is given; Fried's when the age is `< 2`. -/
def _calculate_methods (adult_dose_mg weight_kg : ℚ) (age : Option ℤ) : CalcMethods :=
  let clarks := _clarks_rule adult_dose_mg weight_kg
  { clarks_rule := _build_method_result clarks "Weight-based calculation"
      ("(" ++ pyNum weight_kg ++ " kg / 70 kg) × " ++ pyNum adult_dose_mg ++ " mg")
    youngs_rule :=
      match age with
      | some a =>
        if a ≤ 18 then
          some (_build_method_result (_youngs_rule adult_dose_mg a) "Age-based calculation"
            ("(" ++ toString a ++ " / (" ++ toString a ++ " + 12)) × " ++ pyNum adult_dose_mg ++ " mg"))
        else none
      | none => none
    frieds_rule :=
      match age with
      | some a =>
        if a < 2 then
          let months : ℤ := a * 12
          some (_build_method_result (_frieds_rule adult_dose_mg (months : ℚ)) "Infant calculation (< 2 years)"
            ("(" ++ toString months ++ " months / 150) × " ++ pyNum adult_dose_mg ++ " mg"))
        else none
      | none => none }

/-- `DosageCalculator._validate_inputs`. A `weight_kg` of Python `None`
reaches `weight_kg < 2.5`, which raises `TypeError` (None is not
comparable with a float). -/
def _validate_inputs (adult_dose_mg : ℚ) (weight_kg : Option ℚ) (age : Option ℤ) :
    Except PyErr Unit :=
  if adult_dose_mg ≤ 0 then .error (.valueError "Adult dose must be positive.")
  else
    match weight_kg with
    | none => .error .typeError
    | some w =>
      if w < 5/2 then .error (.valueError "Weight must be ≥ 2.5 kg.")
      else if w > 200 then
        .error (.valueError ("Weight seems unreasonably high (" ++ pyNum w ++ " kg)."))
      else
        match age with
        | some a =>
          if a < 0 then .error (.valueError "Age cannot be negative.")
          else if a > 120 then .error (.valueError "Age seems unreasonably high.")
          else .ok ()
        | none => .ok ()

/-- `DosageCalculator._generate_warnings` (all plain string warnings). -/
def _generate_warnings (dose weight_kg : ℚ) (age : Option ℤ) : List PyWarning :=
  [PyWarning.s "⚠️ CRITICAL: Calculations are estimates only. Consult a healthcare provider before administering any medication."]
  ++ (if weight_kg < 10 then
        [PyWarning.s "⚠️ Very low weight detected. Infant dosing requires specialist input."]
      else [])
  ++ (match age with
      | some a =>
        if a < 2 then
          [PyWarning.s "⚠️ Patient is an infant (< 2 years). Use Fried’s Rule and consult a pediatrician."]
        else if a ≥ 12 then
          [PyWarning.s "⚠️ Patient is approaching adult age. Consider adult dosing or confirm with physician."]
        else []
      | none => [])
  ++ (if dose < 1 then
        [PyWarning.s "⚠️ Calculated dose is very small. Verify with a pharmacist for accuracy."]
      else [])

/-- `DosageCalculator.calculate_pediatric_dosage`: validate, run the
formulas, take the (rounded) Clark's-rule dose as the recommendation,
generate warnings and return the result dict.  Raised `ValueError`s and
`TypeError`s travel on the `Except` channel. -/
def calculate_pediatric_dosage (adult_dose_mg : ℚ) (patient_weight_kg : Option ℚ)
    (patient_age : Option ℤ) : Except PyErr CalcResult :=
  match _validate_inputs adult_dose_mg patient_weight_kg patient_age with
  | .error e => .error e
  | .ok () =>
    match patient_weight_kg with
    | none => .error .typeError  -- unreachable: validation already rejected None
    | some w =>
      let methods := _calculate_methods adult_dose_mg w patient_age
      let recommended := methods.clarks_rule.dose_mg
      .ok { adult_dose_mg := adult_dose_mg
            patient_weight_kg := w
            patient_age := patient_age
            methods := methods
            recommended_dose_mg := recommended
            warnings := _generate_warnings recommended w patient_age }

end DosageUtil

/-! ## Regex-fragment helpers for the dosage service

`DosageService` uses `re.search(pat, text, re.IGNORECASE)` with patterns
that are either plain literals or a literal followed by `\s*` and a digit
(`children under\s*\d+`) or a literal followed by `\s*` and another
literal (`per\s*kg`).  These are modelled directly on char lists. -/

/-- Python's `\s` class: space, tab, newline, carriage return, form feed,
vertical tab. -/
def isPyWs (c : Char) : Bool :=
  c = ' ' || c = '\t' || c = '\n' || c = '\r' || c = '\x0c' || c = '\x0b'

/-- Drop a maximal run of `\s` characters. -/
def dropWs (cs : List Char) : List Char := cs.dropWhile isPyWs

/-- `searchAfter lit p cs`: does `cs` contain an occurrence of the literal
`lit` such that, after skipping the following whitespace run, the rest
satisfies `p`?  This is exactly `re.search(lit + r"\s*" + X)` where `p`
recognises `X` at the head (`X` a digit class or a literal). -/
def searchAfter (lit : List Char) (p : List Char → Bool) : List Char → Bool
  | [] => lit.isEmpty && p []
  | c :: rest =>
    (lit.isPrefixOf (c :: rest) && p (dropWs ((c :: rest).drop lit.length)))
    || searchAfter lit p rest

/-- Head-is-a-digit test (`\d+` needs at least one digit). -/
def digitHead : List Char → Bool
  | [] => false
  | c :: _ => c.isDigit

/-- Case-insensitive lowering of a char list (Python `str.lower()` on the
ASCII alphabet in play). -/
def lowerChars (cs : List Char) : List Char := cs.map Char.toLower

/-- Executable infix (substring) test on char lists, modelling Python's
`needle in hay`. -/
def infixOfChars (needle : List Char) : List Char → Bool
  | [] => needle.isEmpty
  | c :: rest => needle.isPrefixOf (c :: rest) || infixOfChars needle rest

/-- Plain substring containment on strings. -/
def strContains (hay needle : String) : Bool := infixOfChars needle.data hay.data

namespace DosageService

/-- `DosageService._is_restricted`: any of the `RESTRICTION_PATTERNS`
matches case-insensitively. -/
def _is_restricted (text : String) : Bool :=
  let t := lowerChars text.data
  infixOfChars "not recommended".data t
  || infixOfChars "do not use".data t
  || infixOfChars "contraindicated".data t
  || infixOfChars "consult a doctor".data t
  || searchAfter "children under".data digitHead t
  || searchAfter "infants under".data digitHead t

/-- `DosageService._is_weight_based`: `(mg/kg|ml/kg|per\s*kg|mcg/kg)`
case-insensitively. -/
def _is_weight_based (text : String) : Bool :=
  let t := lowerChars text.data
  infixOfChars "mg/kg".data t
  || infixOfChars "ml/kg".data t
  || searchAfter "per".data (fun cs => "kg".data.isPrefixOf cs) t
  || infixOfChars "mcg/kg".data t

/-- A value of an OpenFDA label field as the dosage service receives it:
Python `None`, a string, or a list of strings. -/
inductive Field where
  /-- Python `None` -/
  | vNone
  /-- a string value -/
  | vStr (s : String)
  /-- a list-of-strings value -/
  | vList (l : List String)
  deriving Repr, DecidableEq

/-- Python truthiness of a field value (`None`, `""` and `[]` are falsy). -/
def Field.truthy : Field → Bool
  | .vNone => false
  | .vStr s => !s.isEmpty
  | .vList l => !l.isEmpty

/-- The text the service builds from a field: `" ".join(...)` for a list,
`str(value)` otherwise (`str(None) = "None"`). -/
def Field.textOf : Field → String
  | .vNone => "None"
  | .vStr s => s
  | .vList l => " ".intercalate l

/-- The parsed label dict returned by `OpenFDAService._parse_label` (all
keys always present). -/
structure FdaInfo where
  purpose : Field
  dosage_and_administration : Field
  pediatric_use : Field
  warnings : Field
  contraindications : Field
  adverse_reactions : Field
  deriving Repr, DecidableEq

/-- The `dosing_info` payload: a label-derived dict (the restricted
response has no `weight_based` key, hence the `Option`) or the raw
calculator output dict. -/
inductive DosingInfo where
  /-- label-derived dosing info -/
  | label (dosage_and_administration pediatric_use : String) (weight_based : Option Bool)
      (warnings contraindications : Field)
  /-- calculator output embedded as dosing info -/
  | calc (c : CalcResult)
  deriving Repr, DecidableEq

/-- The branch-dependent part of a `get_dosage_info` result (what the
`_build_*_response` helpers return). -/
structure ResponsePart where
  source : String
  confidence : String
  dosing_info : Option DosingInfo
  note : String
  warnings : List PyWarning
  deriving Repr, DecidableEq

/-- Full `get_dosage_info` result: `base_result` fields (plus the
`calculation_error` key added on a fallen-through `ValueError`) merged
with a `ResponsePart`. -/
structure DosageResult where
  patient_weight_kg : Option ℚ
  patient_age : Option ℤ
  patient_age_months : Option ℤ
  calculation_error : Option String
  source : String
  confidence : String
  dosing_info : Option DosingInfo
  note : String
  warnings : List PyWarning
  deriving Repr, DecidableEq

/-- `DosageService._build_restricted_response`. -/
def _build_restricted_response (fda_info : FdaInfo) (dosage_text pediatric_text : String) :
    ResponsePart :=
  { source := "fda_official"
    confidence := "high"
    dosing_info := some (.label dosage_text pediatric_text none
      fda_info.warnings fda_info.contraindications)
    note := "Restricted pediatric use. Consult healthcare provider."
    warnings := [PyWarning.w "critical" "restriction_detected"
      "FDA label indicates this product is not safe for some ages."] }

/-- `DosageService._build_fda_response`. -/
def _build_fda_response (fda_info : FdaInfo) (dosage_text pediatric_text : String)
    (weight_based : Bool) : ResponsePart :=
  { source := "fda_official"
    confidence := "high"
    dosing_info := some (.label dosage_text pediatric_text (some weight_based)
      fda_info.warnings fda_info.contraindications)
    note := "Official FDA-approved pediatric dosing."
    warnings := [PyWarning.w "info" "source_info"
      "Information retrieved from official FDA drug label."] }

/-- The critical warning dict that `_build_calculated_response` inserts at
position 0 of the calculator's warnings list. -/
def calculationWarning : PyWarning :=
  PyWarning.w "critical" "calculation_warning"
    "Calculated using generic formulas, not official guidelines. Consult healthcare provider."

/-- `DosageService._build_calculated_response`: `warnings.insert(0, …)`
mutates the very list object held by `calculated["warnings"]`, so both the
top-level `warnings` and `dosing_info["warnings"]` are that prepended
list. -/
def _build_calculated_response (calculated : CalcResult) : ResponsePart :=
  let warnings := calculationWarning :: calculated.warnings
  { source := "calculated_estimate"
    confidence := "low"
    dosing_info := some (.calc { calculated with warnings := warnings })
    note := "Estimated using pediatric formula."
    warnings := warnings }

/-- `DosageService._build_unavailable_response`. -/
def _build_unavailable_response : ResponsePart :=
  { source := "unavailable"
    confidence := "none"
    dosing_info := none
    note := "No FDA or calculated dosage available. Consult provider."
    warnings := [PyWarning.w "critical" "no_data"
      "No pediatric dosing information available."] }

/-- `{**base_result, **response}` merge. -/
def assemble (patient_weight_kg : Option ℚ) (patient_age patient_age_months : Option ℤ)
    (calculation_error : Option String) (p : ResponsePart) : DosageResult :=
  { patient_weight_kg := patient_weight_kg
    patient_age := patient_age
    patient_age_months := patient_age_months
    calculation_error := calculation_error
    source := p.source
    confidence := p.confidence
    dosing_info := p.dosing_info
    note := p.note
    warnings := p.warnings }

/-- The "dosing text" of a returned label as `get_dosage_info` builds it:
the dosing-instructions text, a space, and the pediatric-use text
(`full_text` in the source). -/
def labelDosingText (info : FdaInfo) : String :=
  info.dosage_and_administration.textOf ++ " " ++ info.pediatric_use.textOf

/-- `DosageService.get_dosage_info`.  The label client's answer (an
`Optional[Dict]`) is the `fdaInfo` parameter; the two name arguments feed
only that query and are omitted.  Note the faithful modelling of the
source's dereference `fda_info.get("dosage_and_administration", "")`
*before* the `if fda_info and dosage_field:` guard: a `None` label answer
raises `AttributeError`. -/
def get_dosage_info (fdaInfo : Option FdaInfo) (adult_dose_mg : Option ℚ)
    (patient_weight_kg : Option ℚ) (patient_age patient_age_months : Option ℤ) :
    Except PyErr DosageResult :=
  match fdaInfo with
  | none => .error .attributeError
  | some info =>
    let dosage_field := info.dosage_and_administration
    let pediatric_field := info.pediatric_use
    -- `if fda_info and dosage_field:` — a returned label dict is non-empty, hence truthy
    if dosage_field.truthy then
      let dosage_text := dosage_field.textOf
      let pediatric_text := pediatric_field.textOf
      let full_text := dosage_text ++ " " ++ pediatric_text
      if _is_restricted full_text then
        .ok (assemble patient_weight_kg patient_age patient_age_months none
          (_build_restricted_response info dosage_text pediatric_text))
      else
        .ok (assemble patient_weight_kg patient_age patient_age_months none
          (_build_fda_response info dosage_text pediatric_text (_is_weight_based dosage_text)))
    else
      match adult_dose_mg with
      | some d =>
        if d ≠ 0 then  -- `if adult_dose_mg:` — 0.0 is falsy
          match DosageUtil.calculate_pediatric_dosage d patient_weight_kg patient_age with
          | .ok calculated =>
            .ok (assemble patient_weight_kg patient_age patient_age_months none
              (_build_calculated_response calculated))
          | .error (.valueError m) =>  -- `except ValueError as e:` — fall through to step 3
            .ok (assemble patient_weight_kg patient_age patient_age_months (some m)
              _build_unavailable_response)
          | .error e => .error e  -- any other exception propagates
        else
          .ok (assemble patient_weight_kg patient_age patient_age_months none
            _build_unavailable_response)
      | none =>
        .ok (assemble patient_weight_kg patient_age patient_age_months none
          _build_unavailable_response)

end DosageService

/-! ## Cache (src/backend/services/cache_service.py)

The in-memory cache dict is modelled as an insertion-ordered association
list with string keys (a Python dict), polymorphic in the stored value as
the code stores both legacy product-name lists and full result dicts.
The durable file write (`save_cached_labels`) only persists the dict and
reports success; the state transition itself is what is modelled. -/

/-- A Python dict with string keys: insertion-ordered association list. -/
abbrev PyDict (α : Type) : Type := List (String × α)

namespace CacheService

/-- Python `d[k] = v`: replace the value at the first exact occurrence of
the key, keeping its position, else append a new pair. -/
def dictAssign {α : Type} : PyDict α → String → α → PyDict α
  | [], k, v => [(k, v)]
  | (k', v') :: rest, k, v =>
    if k' = k then (k', v) :: rest else (k', v') :: dictAssign rest k v

/-- `CacheService.get`: scan the stored keys in order and return the value
of the first key equal to the query up to case (`cached_brand.lower() ==
brand_name.lower()`). -/
def get {α : Type} (cache : PyDict α) (brand_name : String) : Option α :=
  match cache with
  | [] => none
  | (k, v) :: rest =>
    if lowerChars k.data = lowerChars brand_name.data then some v else get rest brand_name

/-- `CacheService.save`: plain dict assignment under the exact new key
(the durable write's success flag is not part of the state). -/
def save {α : Type} (cache : PyDict α) (brand_name : String) (products : α) : PyDict α :=
  dictAssign cache brand_name products

end CacheService

/-! ## DrugLookupService.lookup_drug
(src/backend/services/drug_lookup/drug_lookup_service.py) -/

namespace DrugLookupService

/-- Python `str.strip()` (whitespace at both ends). -/
def pyStrip (s : String) : String :=
  ⟨(s.data.dropWhile isPyWs).reverse.dropWhile isPyWs |>.reverse⟩

/-- `not brand_name or not brand_name.strip()`. -/
def blankInput (s : String) : Bool := s.isEmpty || (pyStrip s).isEmpty

/-- The dict returned by `RxNormService.get_drug_details` (when not
`None`): `{brand_name, generic_name, products}` with opaque enriched
product payloads. -/
structure ApiResult (π : Type) where
  brand_name : String
  generic_name : Option String
  products : List π
  deriving Repr, DecidableEq

/-- A value stored in the cache: either a legacy flat list of products or
a full `get_drug_details` dict. -/
inductive CacheVal (π : Type) where
  /-- legacy cache shape: a plain list -/
  | legacy (products : List π)
  /-- new cache shape: the full result dict -/
  | full (r : ApiResult π)
  deriving Repr, DecidableEq

/-- Python truthiness of a cached value (`if cached:`): an empty legacy
list is falsy; a result dict always has its three keys, hence truthy. -/
def CacheVal.truthy {π : Type} : CacheVal π → Bool
  | .legacy ps => !ps.isEmpty
  | .full _ => true

/-- Outcome of one `lookup_drug` call: the returned triple, the cache
state afterwards, and whether the RxNorm client was invoked. -/
structure LookupOutcome (π : Type) where
  products : List π
  source : String
  generic_name : Option String
  cache : PyDict (CacheVal π)
  apiCalled : Bool
  deriving Repr, DecidableEq

/-- `DrugLookupService.lookup_drug`.  The RxNorm client's behaviour is the
function `api` from (stripped) brand name to its `get_drug_details`
answer; `cache` is the `CacheService` state. -/
def lookup_drug {π : Type} (brand_name0 : String) (cache : PyDict (CacheVal π))
    (api : String → Option (ApiResult π)) : LookupOutcome π :=
  if blankInput brand_name0 then
    { products := [], source := "invalid_input", generic_name := none,
      cache := cache, apiCalled := false }
  else
    let brand_name := pyStrip brand_name0
    let cached := CacheService.get cache brand_name
    match cached with
    | some v =>
      if v.truthy then
        match v with
        | .full r =>
          { products := r.products, source := "cache:" ++ brand_name,
            generic_name := r.generic_name, cache := cache, apiCalled := false }
        | .legacy ps =>
          { products := ps, source := "cache:" ++ brand_name,
            generic_name := none, cache := cache, apiCalled := false }
      else
        fetchFromApi brand_name cache api
    | none => fetchFromApi brand_name cache api
where
  /-- the `# FETCH FROM API` tail of `lookup_drug`: call the client, and
  on a result with a truthy `products` list write it through and tag
  `api`, else tag `not_found`. -/
  fetchFromApi {π : Type} (brand_name : String) (cache : PyDict (CacheVal π))
      (api : String → Option (ApiResult π)) : LookupOutcome π :=
    match api brand_name with
    | some r =>
      if !r.products.isEmpty then
        { products := r.products, source := "api", generic_name := r.generic_name,
          cache := CacheService.save cache brand_name (.full r), apiCalled := true }
      else
        { products := [], source := "not_found", generic_name := none,
          cache := cache, apiCalled := true }
    | none =>
      { products := [], source := "not_found", generic_name := none,
        cache := cache, apiCalled := true }

end DrugLookupService

/-! ## Concrete fixtures used in counterexamples and witnesses -/

namespace Fixtures

/-- A parsed label record all of whose clinical fields are `None` (a label
was returned but carries no dosing text). -/
def emptyLabel : DosageService.FdaInfo :=
  { purpose := .vNone, dosage_and_administration := .vNone, pediatric_use := .vNone,
    warnings := .vNone, contraindications := .vNone, adverse_reactions := .vNone }

/-- A label whose dosing instructions contain the restriction phrase. -/
def restrictedLabel : DosageService.FdaInfo :=
  { emptyLabel with
    dosage_and_administration :=
      .vStr "Adults: take 2 tablets. not recommended for children under 2" }

/-- A label whose dosing-instructions field is the empty string while the
pediatric-use text carries the restriction phrase. -/
def pedOnlyLabel : DosageService.FdaInfo :=
  { emptyLabel with
    dosage_and_administration := .vStr "",
    pediatric_use := .vStr "not recommended for children under 2" }

/-- The calculator's output for `adult_dose_mg = 100`, `weight = 35 kg`,
no age. -/
def calcRes100_35 : CalcResult :=
  { adult_dose_mg := 100, patient_weight_kg := 35, patient_age := none,
    methods := DosageUtil._calculate_methods 100 35 none,
    recommended_dose_mg := 50,
    warnings := [PyWarning.s "⚠️ CRITICAL: Calculations are estimates only. Consult a healthcare provider before administering any medication."] }

/-- A catalog answer for `"Tylenol"` with two products. -/
def tylenolResult : DrugLookupService.ApiResult String :=
  { brand_name := "Tylenol", generic_name := some "acetaminophen",
    products := ["Tylenol 325 MG Oral Tablet", "Tylenol 500 MG Oral Tablet"] }

/-- A catalog client that answers only for `"Tylenol"`. -/
def tylenolApi : String → Option (DrugLookupService.ApiResult String) :=
  fun n => if n = "Tylenol" then some tylenolResult else none

end Fixtures

/-! ## Helper lemmas -/

/-- `infixOfChars` decides the `<:+:` relation. -/
theorem infixOfChars_iff (needle hay : List Char) :
    infixOfChars needle hay = true ↔ needle <:+: hay := by
  induction hay with
  | nil =>
    simp [infixOfChars, List.isEmpty_iff]
  | cons c rest ih =>
    simp only [infixOfChars, Bool.or_eq_true, List.isPrefixOf_iff_prefix, ih,
      List.infix_cons_iff]

/-- `round2` is the identity on integral values. -/
theorem round2_intCast (n : ℤ) : round2 (n : ℚ) = n := by
  simp only [round2]
  have h100 : ((n : ℚ) * 100) = ((n * 100 : ℤ) : ℚ) := by push_cast; ring
  rw [h100, Int.floor_intCast]
  norm_num

/-- Concrete evaluation of the utilities calculator at
`adult_dose_mg = 100`, `weight = 35`, no age. -/
theorem calc_100_35 :
    DosageUtil.calculate_pediatric_dosage 100 (some 35) none = .ok Fixtures.calcRes100_35 := by
  have hdose : (DosageUtil._calculate_methods 100 35 none).clarks_rule.dose_mg = 50 := by
    show round2 ((35/70 : ℚ) * 100) = 50
    have h : ((35/70 : ℚ) * 100) = ((50 : ℤ) : ℚ) := by norm_num
    rw [h, round2_intCast]; norm_num
  unfold DosageUtil.calculate_pediatric_dosage DosageUtil._validate_inputs
  norm_num [hdose, DosageUtil._generate_warnings, Fixtures.calcRes100_35]

/-! ## C2 -/

/-- C2: the claim states that absence of label data never raises and
collapses to a typed `unavailable` result.  The code instead dereferences
the label client's `None` answer (`fda_info.get(...)` before the
`if fda_info` guard) and raises `AttributeError`: with no label record and
no adult dose, `get_dosage_info` raises instead of returning
`source=unavailable`. -/
theorem C2_no_label_raises_attribute_error :
    DosageService.get_dosage_info none none none none none = .error .attributeError := rfl

/-! ## C1 -/

/-- C1: the claim states that with no label data, `adult_dose_mg=100` and
`patient_weight_kg=35`, the result is `source=calculated_estimate`,
`confidence=low`, `recommended_dose_mg = 50`.  On the code, a label-client
answer of `None` ("no label data") raises `AttributeError` before the
calculator is reached (first conjunct, the failing input); the claimed
result is produced only when a label record is returned whose dosing field
is empty (second conjunct: Clark's rule gives exactly 50). -/
theorem C1_no_label_calculated_estimate :
    DosageService.get_dosage_info none (some 100) (some 35) none none = .error .attributeError
    ∧ ∃ r, DosageService.get_dosage_info (some Fixtures.emptyLabel) (some 100) (some 35) none none
          = .ok r
        ∧ r.source = "calculated_estimate" ∧ r.confidence = "low"
        ∧ ∃ c, r.dosing_info = some (.calc c) ∧ c.recommended_dose_mg = 50 := by
  constructor
  · rfl
  · have hd : ((100 : ℚ) ≠ 0) := by norm_num
    have heval : DosageService.get_dosage_info (some Fixtures.emptyLabel) (some 100) (some 35)
        none none
        = .ok (DosageService.assemble (some 35) none none none
            (DosageService._build_calculated_response Fixtures.calcRes100_35)) := by
      unfold DosageService.get_dosage_info
      simp only [Fixtures.emptyLabel, DosageService.Field.truthy, Bool.false_eq_true, if_false,
        if_pos hd, calc_100_35]
    exact ⟨_, heval, rfl, rfl, _, rfl, rfl⟩

/-! ## C6 -/

/-- C6: Clark's rule of the pure calculator at the 70 kg reference weight
returns the adult dose exactly, and both the pure calculator's weight
validation and the utilities calculator's input validation raise
`ValueError` at `weight = 1.0` and at `weight = 250`. -/
theorem C6_clarks_identity_and_weight_validation :
    (∀ d : ℚ, DosageDC.clarks_rule d 70 = d)
    ∧ (∃ m, DosageDC.validate_weight 1 = .error (.valueError m))
    ∧ (∃ m, DosageDC.validate_weight 250 = .error (.valueError m))
    ∧ (∃ m, DosageUtil._validate_inputs 100 (some 1) none = .error (.valueError m))
    ∧ (∃ m, DosageUtil._validate_inputs 100 (some 250) none = .error (.valueError m)) := by
  refine ⟨fun d => ?_,
    ⟨"Weight must be greater than 2.5kg", ?_⟩,
    ⟨"Weight must be ≤ 200kg", ?_⟩,
    ⟨"Weight must be ≥ 2.5 kg.", ?_⟩,
    ⟨"Weight seems unreasonably high (" ++ pyNum 250 ++ " kg).", ?_⟩⟩
  · unfold DosageDC.clarks_rule DosageDC.STANDARD_ADULT_WEIGHT_KG
    norm_num
  · unfold DosageDC.validate_weight
    norm_num
  · unfold DosageDC.validate_weight
    norm_num
  · unfold DosageUtil._validate_inputs
    norm_num
  · unfold DosageUtil._validate_inputs
    norm_num

/-! ## C3 -/

/-- C3 counterexample: for `userWasSpecific = true` and a refined list of
6 products, `ProductMatcher.evaluate_matches` samples the first 3 refined
products, not the first 5 the claim states. -/
theorem C3_counterexample :
    (ProductMatcher.evaluate_matches ([] : List ℕ) [1, 2, 3, 4, 5, 6] true).sample_products
      = [1, 2, 3]
    ∧ ([1, 2, 3, 4, 5, 6] : List ℕ).take 5 = [1, 2, 3, 4, 5]
    ∧ ([1, 2, 3] : List ℕ) ≠ [1, 2, 3, 4, 5] := by decide

/-- C3 (amended): for `userWasSpecific = true` and a refined list of size
greater than 1, `ProductMatcher.evaluate_matches` returns
`matchType = multiple`, no best match, `matchCount` the refined length,
and `sampleProducts` the first **3** refined products. -/
theorem C3_multiple_match_shape {α : Type} (products refined : List α)
    (h : 1 < refined.length) :
    ProductMatcher.evaluate_matches products refined true =
      { match_type := "multiple", best_match := none,
        sample_products := refined.take 3, match_count := refined.length } := by
  have hne : refined ≠ [] := by
    intro hnil; rw [hnil] at h; simp at h
  have hlen : refined.length ≠ 1 := by omega
  unfold ProductMatcher.evaluate_matches
  simp [List.isEmpty_iff, hne, hlen]

/-- C3 witness: the amended theorem applied to a 6-element refined list. -/
theorem C3_multiple_match_shape_witness :
    (1 < ([1, 2, 3, 4, 5, 6] : List ℕ).length)
    ∧ ProductMatcher.evaluate_matches ([] : List ℕ) [1, 2, 3, 4, 5, 6] true =
      { match_type := "multiple", best_match := none,
        sample_products := [1, 2, 3], match_count := 6 } :=
  ⟨by decide,
    (C3_multiple_match_shape ([] : List ℕ) [1, 2, 3, 4, 5, 6] (by decide)).trans (by decide)⟩

/-! ## C7 -/

/-- C7: `evaluate_matches`'s classification (`match_type`, `match_count`)
is a pure function of `(userWasSpecific, len(refined), len(full))`; the
`MatchResult` invariant holds (`match_type = exact` iff `match_count = 1`
and a best match is set, and `vague` only when the caller was not
specific); and for `userWasSpecific = true` and `refined = [P]` the result
is `exact` with best match `P`. -/
theorem C7_evaluate_pure_classification_invariant (α : Type) :
    (∀ (products refined products' refined' : List α) (u : Bool),
        refined.length = refined'.length → products.length = products'.length →
        (ProductMatcher.evaluate_matches products refined u).match_type
            = (ProductMatcher.evaluate_matches products' refined' u).match_type
          ∧ (ProductMatcher.evaluate_matches products refined u).match_count
            = (ProductMatcher.evaluate_matches products' refined' u).match_count)
    ∧ (∀ (products refined : List α) (u : Bool),
        ((ProductMatcher.evaluate_matches products refined u).match_type = "exact"
          ↔ (ProductMatcher.evaluate_matches products refined u).match_count = 1
            ∧ ((ProductMatcher.evaluate_matches products refined u).best_match).isSome = true)
        ∧ ((ProductMatcher.evaluate_matches products refined u).match_type = "vague" →
            u = false))
    ∧ (∀ (products : List α) (P : α),
        ProductMatcher.evaluate_matches products [P] true =
          { match_type := "exact", best_match := some P,
            sample_products := [P], match_count := 1 }) := by
  refine ⟨?_, ?_, ?_⟩
  · intro products refined products' refined' u hr hp
    have he : refined.isEmpty = refined'.isEmpty := by
      cases refined <;> cases refined' <;> simp_all
    unfold ProductMatcher.evaluate_matches
    rw [he, hr, hp]
    split_ifs <;> simp
  · intro products refined u
    unfold ProductMatcher.evaluate_matches
    cases u with
    | false => simp
    | true =>
      cases refined with
      | nil => simp
      | cons P rest =>
        rcases rest with _ | ⟨Q, rest'⟩ <;> simp
  · intro products P
    unfold ProductMatcher.evaluate_matches
    simp

/-- C7 witness: the theorem applied at concrete inputs — determinism of
the classification across two equal-length input pairs, and the singleton
refined case. -/
theorem C7_witness :
    ((ProductMatcher.evaluate_matches ([1, 2] : List ℕ) [3] true).match_type
        = (ProductMatcher.evaluate_matches ([4, 5] : List ℕ) [6] true).match_type)
    ∧ ProductMatcher.evaluate_matches ([] : List ℕ) [9] true
        = { match_type := "exact", best_match := some 9,
            sample_products := [9], match_count := 1 } :=
  ⟨((C7_evaluate_pure_classification_invariant ℕ).1 [1, 2] [3] [4, 5] [6] true
      (by decide) (by decide)).1,
   (C7_evaluate_pure_classification_invariant ℕ).2.2 [] 9⟩

/-! ## C10 -/

/-- C10: whenever `get_dosage_info` returns a `calculated_estimate`
result, the top-level warnings are the calculator's warnings with the
critical calculation warning inserted at position 0, and — since the very
same (mutated) list object is embedded — `dosing_info["warnings"]` also
begins with that warning, so `dosing_info` is not the unmodified
calculator output. -/
theorem C10_calculated_warnings_aliasing (info : DosageService.FdaInfo) (d : ℚ)
    (w : Option ℚ) (a m : Option ℤ) (c : CalcResult)
    (hfalsy : info.dosage_and_administration.truthy = false)
    (hd : d ≠ 0)
    (hcalc : DosageUtil.calculate_pediatric_dosage d w a = .ok c) :
    ∃ r, DosageService.get_dosage_info (some info) (some d) w a m = .ok r
      ∧ r.source = "calculated_estimate"
      ∧ r.warnings = DosageService.calculationWarning :: c.warnings
      ∧ r.dosing_info = some (.calc { c with
          warnings := DosageService.calculationWarning :: c.warnings })
      ∧ r.dosing_info ≠ some (.calc c) := by
  have heval : DosageService.get_dosage_info (some info) (some d) w a m
      = .ok (DosageService.assemble w a m none
          (DosageService._build_calculated_response c)) := by
    unfold DosageService.get_dosage_info
    simp only [hfalsy, Bool.false_eq_true, if_false, if_pos hd, hcalc]
  refine ⟨_, heval, rfl, rfl, rfl, ?_⟩
  intro hcontra
  have h1 : DosageService.DosingInfo.calc { c with
      warnings := DosageService.calculationWarning :: c.warnings }
      = DosageService.DosingInfo.calc c :=
    Option.some.inj hcontra
  have h2 : DosageService.calculationWarning :: c.warnings = c.warnings :=
    congrArg CalcResult.warnings (DosageService.DosingInfo.calc.inj h1)
  exact List.cons_ne_self _ _ h2

/-- C10 witness: the theorem at the concrete calculated-path input
(`emptyLabel`, dose 100, weight 35). -/
theorem C10_witness :
    ∃ r, DosageService.get_dosage_info (some Fixtures.emptyLabel) (some 100) (some 35) none none
        = .ok r
      ∧ r.source = "calculated_estimate"
      ∧ r.warnings = DosageService.calculationWarning :: Fixtures.calcRes100_35.warnings
      ∧ r.dosing_info = some (.calc { Fixtures.calcRes100_35 with
          warnings := DosageService.calculationWarning :: Fixtures.calcRes100_35.warnings })
      ∧ r.dosing_info ≠ some (.calc Fixtures.calcRes100_35) :=
  C10_calculated_warnings_aliasing Fixtures.emptyLabel 100 (some 35) none none
    Fixtures.calcRes100_35 rfl (by norm_num) calc_100_35

/-! ## C5 -/

/-- Any text containing the phrase
`"not recommended for children under 2"` matches the restriction scan
(the phrase contains the literal pattern `"not recommended"`, which the
scan looks for case-insensitively). -/
theorem restricted_of_contains_phrase (t : String)
    (h : strContains t "not recommended for children under 2" = true) :
    DosageService._is_restricted t = true := by
  rw [strContains, infixOfChars_iff] at h
  have h1 : "not recommended".data <:+:
      lowerChars "not recommended for children under 2".data :=
    (infixOfChars_iff _ _).1 (by decide)
  have h2 : lowerChars "not recommended for children under 2".data <:+: lowerChars t.data :=
    List.IsInfix.map Char.toLower h
  have h3 : infixOfChars "not recommended".data (lowerChars t.data) = true :=
    (infixOfChars_iff _ _).2 (h1.trans h2)
  unfold DosageService._is_restricted
  simp only [h3, Bool.true_or]

/-- C5 counterexample: a label whose dosing-instructions field is the
empty string but whose pediatric-use text carries the phrase.  Its dosing
text (instructions ++ " " ++ pediatric use) contains the phrase, yet
`get_dosage_info` skips the official-label branch (the empty instructions
are falsy) and returns `source = "unavailable"`, not `fda_official`. -/
theorem C5_counterexample :
    strContains (DosageService.labelDosingText Fixtures.pedOnlyLabel)
      "not recommended for children under 2" = true
    ∧ (DosageService.get_dosage_info (some Fixtures.pedOnlyLabel) none none none none).map
        (fun r => r.source) = .ok "unavailable"
    ∧ ("unavailable" : String) ≠ "fda_official" := by
  refine ⟨by decide, rfl, by decide⟩

/-- C5 (amended): whenever the label source returns a label whose
dosing-instructions field is non-empty (truthy) and whose dosing text
contains the phrase `"not recommended for children under 2"`, the result
has `source = "fda_official"` with at least one `critical`-level warning,
regardless of any supplied `adult_dose_mg`. -/
theorem C5_restricted_label_outranks_calculator (info : DosageService.FdaInfo)
    (adult_dose_mg patient_weight_kg : Option ℚ) (patient_age patient_age_months : Option ℤ)
    (htruthy : info.dosage_and_administration.truthy = true)
    (hphrase : strContains (DosageService.labelDosingText info)
        "not recommended for children under 2" = true) :
    ∃ r, DosageService.get_dosage_info (some info) adult_dose_mg patient_weight_kg
          patient_age patient_age_months = .ok r
      ∧ r.source = "fda_official"
      ∧ ∃ cat msg, PyWarning.w "critical" cat msg ∈ r.warnings := by
  have hrestr : DosageService._is_restricted
      (info.dosage_and_administration.textOf ++ " " ++ info.pediatric_use.textOf) = true :=
    restricted_of_contains_phrase _ hphrase
  have heval : DosageService.get_dosage_info (some info) adult_dose_mg patient_weight_kg
      patient_age patient_age_months
      = .ok (DosageService.assemble patient_weight_kg patient_age patient_age_months none
          (DosageService._build_restricted_response info
            info.dosage_and_administration.textOf info.pediatric_use.textOf)) := by
    unfold DosageService.get_dosage_info
    simp only [htruthy, if_true, hrestr]
  exact ⟨_, heval, rfl, "restriction_detected",
    "FDA label indicates this product is not safe for some ages.", List.mem_singleton.2 rfl⟩

/-- C5 witness: the amended theorem at a concrete restricted label with an
adult dose supplied. -/
theorem C5_witness :
    Fixtures.restrictedLabel.dosage_and_administration.truthy = true
    ∧ strContains (DosageService.labelDosingText Fixtures.restrictedLabel)
        "not recommended for children under 2" = true
    ∧ ∃ r, DosageService.get_dosage_info (some Fixtures.restrictedLabel) (some 100) (some 35)
          none none = .ok r
        ∧ r.source = "fda_official"
        ∧ ∃ cat msg, PyWarning.w "critical" cat msg ∈ r.warnings :=
  ⟨by decide, by decide,
    C5_restricted_label_outranks_calculator Fixtures.restrictedLabel (some 100) (some 35)
      none none (by decide) (by decide)⟩

/-! ## C4 -/

/-- C4 counterexample: with an entry already stored under the key
`"tylenol"`, saving under the case variant `"TYLENOL"` does **not**
overwrite it — `save` assigns under the exact new key, so a second entry
is appended — and a subsequent `get` (even with the newly saved casing)
scans keys in insertion order and returns the stale earlier entry, not
the entry just saved. -/
theorem C4_counterexample :
    CacheService.save [("tylenol", (["old"] : List String))] "TYLENOL" ["new"]
      = [("tylenol", ["old"]), ("TYLENOL", ["new"])]
    ∧ CacheService.get
        (CacheService.save [("tylenol", (["old"] : List String))] "TYLENOL" ["new"]) "TYLENOL"
      = some ["old"]
    ∧ (["old"] : List String) ≠ ["new"] := by
  refine ⟨by decide, by decide, by decide⟩

/-- C4 (amended): if no key already stored in the cache is a case variant
of the saved key other than the key itself, then after `save` a `get` with
any case variant of that key returns the entry just saved.  (In general
`save` overwrites only an entry whose key is exactly equal; an earlier
differently-cased key keeps its old value and shadows the new entry on
`get`, as the counterexample shows.) -/
theorem C4_case_insensitive_get_after_save {α : Type} (cache : PyDict α) (k q : String)
    (v : α)
    (hvariants : ∀ p ∈ cache, lowerChars p.1.data = lowerChars k.data → p.1 = k)
    (hq : lowerChars q.data = lowerChars k.data) :
    CacheService.get (CacheService.save cache k v) q = some v := by
  induction cache with
  | nil =>
    simp [CacheService.save, CacheService.dictAssign, CacheService.get, hq]
  | cons p rest ih =>
    obtain ⟨k', v'⟩ := p
    by_cases hk : k' = k
    · subst hk
      simp [CacheService.save, CacheService.dictAssign, CacheService.get, hq]
    · have hlow : lowerChars k'.data ≠ lowerChars q.data := by
        rw [hq]
        intro hc
        exact hk (hvariants ⟨k', v'⟩ (List.mem_cons_self _ _) hc)
      have hrest : ∀ p ∈ rest, lowerChars p.1.data = lowerChars k.data → p.1 = k :=
        fun p hp h => hvariants p (List.mem_cons_of_mem _ hp) h
      simpa [CacheService.save, CacheService.dictAssign, CacheService.get, hk, hlow]
        using ih hrest

/-- C4 witness: the amended theorem applied to a cache holding an
unrelated key, saving `"Tylenol"` and reading back `"TYLENOL"`. -/
theorem C4_witness :
    (∀ p ∈ ([("advil", ["a"])] : PyDict (List String)),
        lowerChars p.1.data = lowerChars "Tylenol".data → p.1 = "Tylenol")
    ∧ lowerChars "TYLENOL".data = lowerChars "Tylenol".data
    ∧ CacheService.get
        (CacheService.save [("advil", ["a"])] "Tylenol" (["t1"] : List String)) "TYLENOL"
      = some ["t1"] :=
  ⟨by decide, by decide,
    C4_case_insensitive_get_after_save [("advil", ["a"])] "Tylenol" "TYLENOL" ["t1"]
      (by decide) (by decide)⟩

/-! ## C8 -/

/-- After saving under a key that had no case-insensitive match in the
cache, `get` of that key finds exactly the saved entry. -/
theorem get_save_of_get_none {α : Type} (cache : PyDict α) (k : String) (v : α)
    (hmiss : CacheService.get cache k = none) :
    CacheService.get (CacheService.save cache k v) k = some v := by
  induction cache with
  | nil => simp [CacheService.save, CacheService.dictAssign, CacheService.get]
  | cons p rest ih =>
    obtain ⟨k', v'⟩ := p
    by_cases hl : lowerChars k'.data = lowerChars k.data
    · exact absurd hmiss (by simp [CacheService.get, hl])
    · have hk : k' ≠ k := fun h => hl (by rw [h])
      have hmiss' : CacheService.get rest k = none := by
        simpa [CacheService.get, hl] using hmiss
      simpa [CacheService.save, CacheService.dictAssign, CacheService.get, hk, hl]
        using ih hmiss'

/-- C8: resolving an unseen brand name (cache miss) that the catalog
client answers with a non-empty product set returns the `api`-tagged
products and writes them through, such that a second `lookup_drug` of the
same brand name returns the same products and generic name with a
`cache:`-prefixed source tag, without invoking the catalog client and
without further cache change. -/
theorem C8_lookup_roundtrip (π : Type) (brand : String) (cache : PyDict (DrugLookupService.CacheVal π))
    (api : String → Option (DrugLookupService.ApiResult π)) (r : DrugLookupService.ApiResult π)
    (hnb : DrugLookupService.blankInput brand = false)
    (hmiss : CacheService.get cache (DrugLookupService.pyStrip brand) = none)
    (hapi : api (DrugLookupService.pyStrip brand) = some r)
    (hne : r.products ≠ []) :
    (DrugLookupService.lookup_drug brand cache api).products = r.products
    ∧ (DrugLookupService.lookup_drug brand cache api).source = "api"
    ∧ (DrugLookupService.lookup_drug brand cache api).generic_name = r.generic_name
    ∧ (DrugLookupService.lookup_drug brand cache api).apiCalled = true
    ∧ (DrugLookupService.lookup_drug brand
          (DrugLookupService.lookup_drug brand cache api).cache api).products = r.products
    ∧ (DrugLookupService.lookup_drug brand
          (DrugLookupService.lookup_drug brand cache api).cache api).generic_name
        = r.generic_name
    ∧ (DrugLookupService.lookup_drug brand
          (DrugLookupService.lookup_drug brand cache api).cache api).source
        = "cache:" ++ DrugLookupService.pyStrip brand
    ∧ (DrugLookupService.lookup_drug brand
          (DrugLookupService.lookup_drug brand cache api).cache api).apiCalled = false
    ∧ (DrugLookupService.lookup_drug brand
          (DrugLookupService.lookup_drug brand cache api).cache api).cache
        = (DrugLookupService.lookup_drug brand cache api).cache := by
  have hne' : (!r.products.isEmpty) = true := by
    simp [List.isEmpty_iff, hne]
  have hfirst : DrugLookupService.lookup_drug brand cache api =
      { products := r.products, source := "api", generic_name := r.generic_name,
        cache := CacheService.save cache (DrugLookupService.pyStrip brand) (.full r),
        apiCalled := true } := by
    unfold DrugLookupService.lookup_drug
    simp only [hnb, Bool.false_eq_true, if_false, hmiss]
    unfold DrugLookupService.lookup_drug.fetchFromApi
    simp only [hapi, hne', if_true]
  have hget2 : CacheService.get
      (CacheService.save cache (DrugLookupService.pyStrip brand)
        (DrugLookupService.CacheVal.full r))
      (DrugLookupService.pyStrip brand) = some (.full r) :=
    get_save_of_get_none cache (DrugLookupService.pyStrip brand) _ hmiss
  have hsecond : DrugLookupService.lookup_drug brand
      (DrugLookupService.lookup_drug brand cache api).cache api =
      { products := r.products, source := "cache:" ++ DrugLookupService.pyStrip brand,
        generic_name := r.generic_name,
        cache := (DrugLookupService.lookup_drug brand cache api).cache,
        apiCalled := false } := by
    rw [hfirst]
    unfold DrugLookupService.lookup_drug
    simp only [hnb, Bool.false_eq_true, if_false, hget2, DrugLookupService.CacheVal.truthy,
      if_true]
  rw [hsecond, hfirst]
  exact ⟨rfl, rfl, rfl, rfl, rfl, rfl, rfl, rfl, rfl⟩

/-- C8 witness: the round-trip theorem on the concrete `"Tylenol"` client
and an empty cache. -/
theorem C8_lookup_roundtrip_witness :
    DrugLookupService.blankInput "Tylenol" = false
    ∧ Fixtures.tylenolApi (DrugLookupService.pyStrip "Tylenol") = some Fixtures.tylenolResult
    ∧ (DrugLookupService.lookup_drug "Tylenol" [] Fixtures.tylenolApi).source = "api"
    ∧ (DrugLookupService.lookup_drug "Tylenol"
          (DrugLookupService.lookup_drug "Tylenol" [] Fixtures.tylenolApi).cache
          Fixtures.tylenolApi).source
        = "cache:" ++ DrugLookupService.pyStrip "Tylenol"
    ∧ (DrugLookupService.lookup_drug "Tylenol"
          (DrugLookupService.lookup_drug "Tylenol" [] Fixtures.tylenolApi).cache
          Fixtures.tylenolApi).apiCalled = false :=
  ⟨by decide, by decide,
    (C8_lookup_roundtrip String "Tylenol" [] Fixtures.tylenolApi Fixtures.tylenolResult
      (by decide) rfl (by decide) (by decide)).2.1,
    (C8_lookup_roundtrip String "Tylenol" [] Fixtures.tylenolApi Fixtures.tylenolResult
      (by decide) rfl (by decide) (by decide)).2.2.2.2.2.2.1,
    (C8_lookup_roundtrip String "Tylenol" [] Fixtures.tylenolApi Fixtures.tylenolResult
      (by decide) rfl (by decide) (by decide)).2.2.2.2.2.2.2.1⟩

/-! ## C9 -/

/-- C9: `lookup_drug` never partially caches.  Either the cache is left
unchanged, or the catalog client returned an entry with a non-empty
product list and that full entry was written under the stripped brand
name; in particular the cache is unchanged on blank input, on a (truthy)
cache hit, on an empty catalog answer and on a products-less catalog
answer. -/
theorem C9_no_partial_caching (π : Type) (brand : String)
    (cache : PyDict (DrugLookupService.CacheVal π))
    (api : String → Option (DrugLookupService.ApiResult π)) :
    ((DrugLookupService.lookup_drug brand cache api).cache = cache
      ∨ ∃ r, api (DrugLookupService.pyStrip brand) = some r ∧ r.products ≠ []
          ∧ (DrugLookupService.lookup_drug brand cache api).cache
              = CacheService.save cache (DrugLookupService.pyStrip brand) (.full r))
    ∧ (DrugLookupService.blankInput brand = true →
        (DrugLookupService.lookup_drug brand cache api).cache = cache)
    ∧ (∀ v, CacheService.get cache (DrugLookupService.pyStrip brand) = some v →
        v.truthy = true → (DrugLookupService.lookup_drug brand cache api).cache = cache)
    ∧ (∀ r, api (DrugLookupService.pyStrip brand) = some r → r.products = [] →
        (DrugLookupService.lookup_drug brand cache api).cache = cache)
    ∧ (api (DrugLookupService.pyStrip brand) = none →
        (DrugLookupService.lookup_drug brand cache api).cache = cache) := by
  by_cases hb : DrugLookupService.blankInput brand = true
  · have heq : (DrugLookupService.lookup_drug brand cache api).cache = cache := by
      unfold DrugLookupService.lookup_drug
      simp [hb]
    exact ⟨Or.inl heq, fun _ => heq, fun _ _ _ => heq, fun _ _ _ => heq, fun _ => heq⟩
  · have hb' : DrugLookupService.blankInput brand = false := by
      cases h : DrugLookupService.blankInput brand with
      | true => exact absurd h hb
      | false => rfl
    have htail : (DrugLookupService.lookup_drug.fetchFromApi
          (DrugLookupService.pyStrip brand) cache api).cache = cache
        ∨ ∃ r, api (DrugLookupService.pyStrip brand) = some r ∧ r.products ≠ []
            ∧ (DrugLookupService.lookup_drug.fetchFromApi
                (DrugLookupService.pyStrip brand) cache api).cache
              = CacheService.save cache (DrugLookupService.pyStrip brand) (.full r) := by
      unfold DrugLookupService.lookup_drug.fetchFromApi
      cases hapi : api (DrugLookupService.pyStrip brand) with
      | none => left; rfl
      | some r =>
        by_cases hp : r.products.isEmpty
        · left; simp [hp]
        · right
          refine ⟨r, rfl, ?_, by simp [hp]⟩
          simpa [List.isEmpty_iff] using hp
    have htail_empty : ∀ r, api (DrugLookupService.pyStrip brand) = some r →
        r.products = [] →
        (DrugLookupService.lookup_drug.fetchFromApi
          (DrugLookupService.pyStrip brand) cache api).cache = cache := by
      intro r hr hempty
      unfold DrugLookupService.lookup_drug.fetchFromApi
      simp [hr, hempty]
    have htail_none : api (DrugLookupService.pyStrip brand) = none →
        (DrugLookupService.lookup_drug.fetchFromApi
          (DrugLookupService.pyStrip brand) cache api).cache = cache := by
      intro hr
      unfold DrugLookupService.lookup_drug.fetchFromApi
      simp [hr]
    cases hget : CacheService.get cache (DrugLookupService.pyStrip brand) with
    | none =>
      have heq : DrugLookupService.lookup_drug brand cache api
          = DrugLookupService.lookup_drug.fetchFromApi
              (DrugLookupService.pyStrip brand) cache api := by
        unfold DrugLookupService.lookup_drug
        simp [hb', hget]
      refine ⟨?_, fun h => absurd h hb, ?_, ?_, ?_⟩
      · rw [heq]; exact htail
      · intro w hw hwt
        exact Option.noConfusion hw
      · intro r hr hempty
        rw [heq]
        exact htail_empty r hr hempty
      · intro hr
        rw [heq]
        exact htail_none hr
    | some v =>
      by_cases ht : v.truthy = true
      · have heq : (DrugLookupService.lookup_drug brand cache api).cache = cache := by
          cases v with
          | full r =>
            unfold DrugLookupService.lookup_drug
            simp [hb', hget, DrugLookupService.CacheVal.truthy]
          | legacy ps =>
            have hps : (!ps.isEmpty) = true := by
              simpa [DrugLookupService.CacheVal.truthy] using ht
            unfold DrugLookupService.lookup_drug
            simp [hb', hget, DrugLookupService.CacheVal.truthy, hps]
        exact ⟨Or.inl heq, fun h => absurd h hb, fun _ _ _ => heq, fun _ _ _ => heq,
          fun _ => heq⟩
      · have ht' : v.truthy = false := by
          cases h : v.truthy with
          | true => exact absurd h ht
          | false => rfl
        have heq : DrugLookupService.lookup_drug brand cache api
            = DrugLookupService.lookup_drug.fetchFromApi
                (DrugLookupService.pyStrip brand) cache api := by
          unfold DrugLookupService.lookup_drug
          simp [hb', hget, ht']
        refine ⟨?_, fun h => absurd h hb, ?_, ?_, ?_⟩
        · rw [heq]; exact htail
        · intro w hw hwt
          obtain rfl := Option.some.inj hw
          exact absurd hwt ht
        · intro r hr hempty
          rw [heq]
          exact htail_empty r hr hempty
        · intro hr
          rw [heq]
          exact htail_none hr

/-- C9 witness: the theorem applied at a concrete (miss, unanswered)
lookup: the cache is unchanged. -/
theorem C9_no_partial_caching_witness :
    ((DrugLookupService.lookup_drug "Advil" [] (fun _ => none)).cache = ([] : PyDict (DrugLookupService.CacheVal String))
      ∨ ∃ r, (fun (_ : String) => (none : Option (DrugLookupService.ApiResult String)))
            (DrugLookupService.pyStrip "Advil") = some r ∧ r.products ≠ []
          ∧ (DrugLookupService.lookup_drug "Advil" [] (fun _ => none)).cache
              = CacheService.save [] (DrugLookupService.pyStrip "Advil") (.full r)) :=
  (C9_no_partial_caching String "Advil" [] (fun _ => none)).1

end Pillinfo
